import Mathlib

/-!
Verification of the Command Center aggregation engine (src/app.py).

Shallow embedding notes.  Python `float` values are modelled as exact
rationals (`Rat`); no property considered here depends on binary floating
point representation.  Every upstream HTTP call is modelled by a field of an
environment record: the call either fails (`Except.error msg`, covering
network errors, timeouts, non-2xx responses, and shape mismatches that raise
before a modelled field is read) or returns a record of exactly the JSON
fields the code reads.  Field-level processing that the code performs itself
(`int(...)`, `float(...)`, `.title()`, `.lower()`, truthiness tests, `.get`
defaults, slicing) is modelled explicitly.  Module imports and event-loop
bootstrap are environment setup outside the aggregation algorithm and are
not modelled.
-/

/-! ### Models of Python primitives -/

def digitsToNatAux : Nat → List Char → Option Nat
  | acc, [] => some acc
  | acc, c :: cs => if c.isDigit then digitsToNatAux (acc * 10 + (c.toNat - 48)) cs else none

def digitsToNat : List Char → Option Nat
  | [] => none
  | cs => digitsToNatAux 0 cs

/-- Model of Python `int(s)` on strings: optional sign followed by decimal digits
(whitespace/underscore tolerance of CPython is not needed by the code's inputs). -/
def pythonInt (s : String) : Option Int :=
  match s.data with
  | '-' :: cs => (digitsToNat cs).map (fun n => -(n : Int))
  | '+' :: cs => (digitsToNat cs).map (fun n => (n : Int))
  | cs => (digitsToNat cs).map (fun n => (n : Int))

def parseUnsigned (cs : List Char) : Option Rat :=
  match cs.splitOn '.' with
  | [w] => (digitsToNat w).map (fun n => (n : Rat))
  | [w, f] =>
      if w.isEmpty && f.isEmpty then none
      else
        match digitsToNatAux 0 w, digitsToNatAux 0 f with
        | some iw, some fr => some ((iw : Rat) + (fr : Rat) / ((10 : Rat) ^ f.length))
        | _, _ => none
  | _ => none

/-- Model of Python `float(s)` on decimal literals (the only inputs the code feeds it). -/
def pythonFloat (s : String) : Option Rat :=
  match s.data with
  | '-' :: cs => (parseUnsigned cs).map (fun q => -q)
  | '+' :: cs => parseUnsigned cs
  | cs => parseUnsigned cs

def titleAux : Bool → List Char → List Char
  | _, [] => []
  | prev, c :: cs =>
      (if c.isAlpha then (if prev then c.toLower else c.toUpper) else c) :: titleAux c.isAlpha cs

/-- Model of Python `str.title()` (ASCII letters). -/
def pythonTitle (s : String) : String := ⟨titleAux false s.data⟩

/-- Model of Python `str.lower()` (ASCII letters). -/
def pythonLower (s : String) : String := s.map Char.toLower

/-- Model of Python `round(q)`: round half to even. -/
def pythonRound (q : Rat) : Int :=
  let f := q.floor
  let r := q - (f : Rat)
  if r < 1/2 then f
  else if 1/2 < r then f + 1
  else if f % 2 = 0 then f else f + 1

/-- Model of Python `round(q, 2)` on the exact-rational model of floats. -/
def pythonRound2 (q : Rat) : Rat := ((pythonRound (q * 100) : Int) : Rat) / 100

/-- Model of the format spec `.2f`. -/
def formatF2 (q : Rat) : String :=
  let n := pythonRound (q * 100)
  let sign := if n < 0 then "-" else ""
  let m := n.natAbs
  sign ++ toString (m / 100) ++ "." ++
    (if m % 100 < 10 then "0" ++ toString (m % 100) else toString (m % 100))

/-- Model of the format spec `+.1f` (negative zero displays as positive zero here;
no property depends on that corner). -/
def formatSigned1 (q : Rat) : String :=
  let n := pythonRound (q * 10)
  let sign := if n < 0 then "-" else "+"
  let m := n.natAbs
  sign ++ toString (m / 10) ++ "." ++ toString (m % 10)

/-- Model of `abs(q):.1f`. -/
def formatAbs1 (q : Rat) : String :=
  let n := (pythonRound (q * 10)).natAbs
  toString (n / 10) ++ "." ++ toString (n % 10)

def listIsInit : List Char → List Char → Bool
  | [], _ => true
  | _ :: _, [] => false
  | a :: ps, b :: ls => a = b && listIsInit ps ls

def containsSub : List Char → List Char → Bool
  | [], p => p.isEmpty
  | l@(_ :: ls), p => listIsInit p l || containsSub ls p

/-- Substring test on strings (used to state properties of rendered briefings). -/
def strContains (s pat : String) : Bool := containsSub s.data pat.data

/-! ### Data model (§3 of the spec, realized by the dict shapes in src/app.py) -/

structure WeatherData where
  city : String
  temp : Int
  condition : String
  humidity : Int
  feels_like : Int
deriving DecidableEq

structure NewsItem where
  title : String
  source : String
  url : Option String
deriving DecidableEq

structure StockItem where
  symbol : String
  price : Rat
  change : Rat
  change_pct : Rat
deriving DecidableEq

structure RepoItem where
  name : String
  stars : Int
  description : String
deriving DecidableEq

structure QuoteData where
  text : String
  author : String
deriving DecidableEq

inductive SourcePayload where
  | weather (w : WeatherData)
  | news (items : List NewsItem)
  | stocks (items : List StockItem)
  | github (repos : List RepoItem)
  | quote (q : QuoteData)
deriving DecidableEq

/-- A fetcher's result dict.  `demo`/`crypto` model the optional keys: an absent
key is `false`. -/
structure SourceResult where
  source : String
  data : Option SourcePayload := none
  error : Option String := none
  demo : Bool := false
  crypto : Bool := false
deriving DecidableEq

/-- The spec's source enum.  The code keys the map with literal strings;
`Source.tag` is the string each abstract source is realized by
(`market` is the `fetch_stocks` fetcher, `trending` is `fetch_github_trending`). -/
inductive Source where
  | weather | news | market | trending | quote
deriving DecidableEq

def Source.tag : Source → String
  | .weather => "weather"
  | .news => "news"
  | .market => "stocks"
  | .trending => "github"
  | .quote => "quote"

def Source.all : List Source := [.weather, .news, .market, .trending, .quote]

/-! ### Weather fetcher (`DataAggregator.fetch_weather`) -/

/-- The fields of the wttr.in JSON the code reads; numeric fields arrive as
strings and go through `int(...)`. -/
structure WttrResponse where
  areaName : String
  temp_F : String
  weatherDesc : String
  humidity : String
  feelsLikeF : String

/-- The fields of the OpenWeatherMap JSON the code reads.  A response in which
`data["main"]` or `data["weather"][0]` is missing raises inside the inner
`try` and is modelled as `Except.error` at the call. -/
structure OwmResponse where
  name : Option String
  temp : Rat
  description : String
  humidity : Int
  feels_like : Rat

structure WeatherEnv where
  primary : Except String WttrResponse
  hasKey : Bool
  secondary : Except String OwmResponse

def weatherFallback (env : WeatherEnv) (city e : String) : SourceResult :=
  if env.hasKey then
    match env.secondary with
    | .ok o =>
        { source := "weather"
          data := some (.weather
            { city := o.name.getD city
              temp := pythonRound o.temp
              condition := pythonTitle o.description
              humidity := o.humidity
              feels_like := pythonRound o.feels_like }) }
    | .error _ => { source := "weather", error := some e }
  else { source := "weather", error := some e }

def fetch_weather (env : WeatherEnv) (city : String) : SourceResult :=
  match env.primary with
  | .ok w =>
      match pythonInt w.temp_F, pythonInt w.humidity, pythonInt w.feelsLikeF with
      | some t, some h, some fl =>
          { source := "weather"
            data := some (.weather
              { city := w.areaName, temp := t, condition := w.weatherDesc
                humidity := h, feels_like := fl }) }
      | _, _, _ => weatherFallback env city "ValueError"
  | .error e => weatherFallback env city e

theorem weatherFallback_source (env : WeatherEnv) (city e : String) :
    (weatherFallback env city e).source = "weather" := by
  unfold weatherFallback
  split
  · split <;> rfl
  · rfl

theorem fetch_weather_source (env : WeatherEnv) (city : String) :
    (fetch_weather env city).source = "weather" := by
  unfold fetch_weather
  split
  · split
    · rfl
    · exact weatherFallback_source ..
  · exact weatherFallback_source ..

/-! ### News fetcher (`DataAggregator.fetch_news`) -/

/-- A Hacker News item as the code reads it: `story.get("title")` and
`story.get("url", default)`.  An item that is JSON `null` is the
`Except.ok none` outcome of the call. -/
structure HnStory where
  title : Option String
  url : Option String

/-- A NewsAPI article; `a["title"]` and `a["source"]["name"]` raise if missing,
which skips to the final error return. -/
structure NewsApiArticle where
  title : Option String
  sourceName : Option String

structure NewsEnv where
  topstories : Except String (List Nat)
  item : Nat → Except String (Option HnStory)
  hasKey : Bool
  secondary : Except String (List NewsApiArticle)

/-- The per-id detail loop of the primary path.  There is no inner `try`:
a failing item fetch aborts the whole primary attempt.  A falsy story or a
story with a falsy title is skipped. -/
def hnCollect (env : NewsEnv) : List Nat → Except String (List NewsItem)
  | [] => .ok []
  | sid :: rest =>
      match env.item sid with
      | .error e => .error e
      | .ok none => hnCollect env rest
      | .ok (some st) =>
          match st.title with
          | none => hnCollect env rest
          | some t =>
              if t = "" then hnCollect env rest
              else
                (hnCollect env rest).map
                  (fun l =>
                    { title := t, source := "Hacker News"
                      url := some (st.url.getD
                        ("https://news.ycombinator.com/item?id=" ++ toString sid)) } :: l)

def parseArticle (a : NewsApiArticle) : Option NewsItem :=
  match a.title, a.sourceName with
  | some t, some n => some { title := t, source := n, url := none }
  | _, _ => none

/-- The NewsAPI list comprehension: a missing field in any taken article raises,
failing the whole fallback. -/
def parseArticles : List NewsApiArticle → Option (List NewsItem)
  | [] => some []
  | a :: rest =>
      match parseArticle a, parseArticles rest with
      | some i, some l => some (i :: l)
      | _, _ => none

/-- The `except` branch of `fetch_news`; `e` is the primary exception's text,
which is what the final error return reports even when the fallback also fails. -/
def newsFallback (env : NewsEnv) (e : String) : SourceResult :=
  if env.hasKey then
    match env.secondary with
    | .ok arts =>
        match parseArticles (arts.take 5) with
        | some items => { source := "news", data := some (.news items) }
        | none => { source := "news", error := some e }
    | .error _ => { source := "news", error := some e }
  else { source := "news", error := some e }

def fetch_news (env : NewsEnv) (_category : String) : SourceResult :=
  match env.topstories with
  | .ok ids =>
      match hnCollect env (ids.take 5) with
      | .ok arts => { source := "news", data := some (.news arts) }
      | .error e => newsFallback env e
  | .error e => newsFallback env e

theorem newsFallback_source (env : NewsEnv) (e : String) :
    (newsFallback env e).source = "news" := by
  unfold newsFallback
  split
  · split
    · split <;> rfl
    · rfl
  · rfl

theorem fetch_news_source (env : NewsEnv) (category : String) :
    (fetch_news env category).source = "news" := by
  unfold fetch_news
  split
  · split
    · rfl
    · exact newsFallback_source ..
  · exact newsFallback_source ..

/-! ### Market fetcher (`DataAggregator.fetch_stocks`) -/

/-- One CoinGecko coin object: `data[coin_id]["usd"]` raises if missing
(failing the whole primary attempt), `usd_24h_change` is read with a
`.get(..., 0)` default. -/
structure CoinEntry where
  usd : Option Rat
  usd_24h_change : Option Rat

structure CgResponse where
  bitcoin : Option CoinEntry
  ethereum : Option CoinEntry
  solana : Option CoinEntry

/-- One Alpha Vantage `"Global Quote"` object; each field is read with a
`.get` default and then fed to `float(...)`. -/
structure AvQuote where
  price : Option String
  change : Option String
  change_percent : Option String

structure StocksEnv where
  primary : Except String CgResponse
  hasKey : Bool
  avCall : String → Except String (Option AvQuote)

def coinItem (entry : Option CoinEntry) (symbol : String) : Except String (Option StockItem) :=
  match entry with
  | none => .ok none
  | some c =>
      match c.usd with
      | none => .error "KeyError"
      | some price =>
          let pct := c.usd_24h_change.getD 0
          .ok (some { symbol := symbol, price := price
                      change := price * (pct / 100), change_pct := pythonRound2 pct })

/-- The CoinGecko loop over `crypto_map` in insertion order. -/
def cgBuild (resp : CgResponse) : Except String (List StockItem) :=
  match coinItem resp.bitcoin "BTC" with
  | .error e => .error e
  | .ok b =>
      match coinItem resp.ethereum "ETH" with
      | .error e => .error e
      | .ok et =>
          match coinItem resp.solana "SOL" with
          | .error e => .error e
          | .ok s => .ok ([b, et, s].filterMap id)

def avParseField (v : Option String) : Option Rat :=
  match v with
  | none => some 0
  | some s => pythonFloat s

def stripPercent (s : String) : String := ⟨s.data.filter (fun c => c ≠ '%')⟩

/-- One iteration of the Alpha Vantage per-symbol loop.  Any exception inside
the per-symbol `try` (network failure or a `float(...)` that raises) skips the
symbol; a falsy `"Global Quote"` is also skipped. -/
def avSym (env : StocksEnv) (symbol : String) : Option StockItem :=
  match env.avCall symbol with
  | .error _ => none
  | .ok none => none
  | .ok (some q) =>
      match avParseField q.price, avParseField q.change,
            avParseField (q.change_percent.map stripPercent) with
      | some p, some c, some pc =>
          some { symbol := symbol, price := p, change := c, change_pct := pc }
      | _, _, _ => none

def stocksFallback (env : StocksEnv) (symbols : List String) (e : String) : SourceResult :=
  if env.hasKey then
    let l := (symbols.take 3).filterMap (avSym env)
    if l.isEmpty then { source := "stocks", error := some e }
    else { source := "stocks", data := some (.stocks l) }
  else { source := "stocks", error := some e }

def fetch_stocks (env : StocksEnv) (symbols : List String) : SourceResult :=
  match env.primary with
  | .ok resp =>
      match cgBuild resp with
      | .ok l => { source := "stocks", data := some (.stocks l), crypto := true }
      | .error e => stocksFallback env symbols e
  | .error e => stocksFallback env symbols e

theorem stocksFallback_source (env : StocksEnv) (symbols : List String) (e : String) :
    (stocksFallback env symbols e).source = "stocks" := by
  unfold stocksFallback
  split
  · dsimp only
    split <;> rfl
  · rfl

theorem fetch_stocks_source (env : StocksEnv) (symbols : List String) :
    (fetch_stocks env symbols).source = "stocks" := by
  unfold fetch_stocks
  split
  · split
    · rfl
    · exact stocksFallback_source ..
  · exact stocksFallback_source ..

/-! ### Trending fetcher (`DataAggregator.fetch_github_trending`) -/

structure GhRepo where
  full_name : String
  stargazers_count : Int
  description : Option String

def fetch_github_trending (env : Except String (List GhRepo)) : SourceResult :=
  match env with
  | .ok repos =>
      { source := "github"
        data := some (.github ((repos.take 5).map (fun r =>
          { name := r.full_name, stars := r.stargazers_count
            description := (r.description.getD "").take 80 }))) }
  | .error e =>
      { source := "github", error := some e, demo := true
        data := some (.github [{ name := "cool/project", stars := 1234
                                 description := "Something interesting" }]) }

theorem fetch_github_source (env : Except String (List GhRepo)) :
    (fetch_github_trending env).source = "github" := by
  unfold fetch_github_trending
  split <;> rfl

/-! ### Quote fetcher (`DataAggregator.fetch_quote`) -/

structure QuoteRaw where
  content : String
  author : String

def builtinQuotes : List QuoteData :=
  [{ text := "The best way to predict the future is to create it.", author := "Peter Drucker" },
   { text := "Innovation distinguishes between a leader and a follower.", author := "Steve Jobs" },
   { text := "The only way to do great work is to love what you do.", author := "Steve Jobs" }]

/-- `random.choice(quotes)`: the pseudo-random draw is an environment input. -/
def pickQuote (i : Fin 3) : QuoteData :=
  builtinQuotes.getD i.val { text := "", author := "" }

structure QuoteEnv where
  call : Except String QuoteRaw
  pick : Fin 3

def fetch_quote (env : QuoteEnv) : SourceResult :=
  match env.call with
  | .ok r => { source := "quote", data := some (.quote { text := r.content, author := r.author }) }
  | .error _ => { source := "quote", data := some (.quote (pickQuote env.pick)), demo := true }

theorem pickQuote_mem (i : Fin 3) : pickQuote i ∈ builtinQuotes := by
  fin_cases i <;> decide

theorem fetch_quote_source (env : QuoteEnv) :
    (fetch_quote env).source = "quote" := by
  unfold fetch_quote
  split <;> rfl

/-! ### Aggregator (`DataAggregator.gather_all`) -/

structure Env where
  weather : WeatherEnv
  news : NewsEnv
  stocks : StocksEnv
  github : Except String (List GhRepo)
  quote : QuoteEnv

/-- One step of the dict comprehension `{r["source"]: r for r in results}`:
insertion-ordered with overwrite on duplicate keys. -/
def dictInsert (m : List (String × SourceResult)) (k : String) (v : SourceResult) :
    List (String × SourceResult) :=
  if m.any (fun p => p.1 == k) then m.map (fun p => if p.1 == k then (k, v) else p)
  else m ++ [(k, v)]

/-- `gather_all`: all five fetchers run (the gather uses `return_exceptions=True`
and each fetcher is total, so the `isinstance(r, dict)` filter passes every
result), then the dict is built from each result's own `source` tag.
Defaults in the code: `city="New York"`, `news_category="technology"`,
`symbols=["AAPL", "GOOGL", "MSFT"]`. -/
def gather_all (env : Env) (city category : String) : List (String × SourceResult) :=
  let results := [fetch_weather env.weather city,
                  fetch_news env.news category,
                  fetch_stocks env.stocks ["AAPL", "GOOGL", "MSFT"],
                  fetch_github_trending env.github,
                  fetch_quote env.quote]
  results.foldl (fun m r => dictInsert m r.source r) []

theorem gather_all_eq (env : Env) (city category : String) :
    gather_all env city category =
      [("weather", fetch_weather env.weather city),
       ("news", fetch_news env.news category),
       ("stocks", fetch_stocks env.stocks ["AAPL", "GOOGL", "MSFT"]),
       ("github", fetch_github_trending env.github),
       ("quote", fetch_quote env.quote)] := by
  unfold gather_all
  simp only [List.foldl_cons, List.foldl_nil]
  rw [fetch_weather_source, fetch_news_source, fetch_stocks_source, fetch_github_source,
      fetch_quote_source]
  rfl

/-! ### Synthesizer (`AIBriefingGenerator`) -/

/-- The aggregated map consumed by the synthesizer (insertion-ordered dict). -/
abbrev AggData := List (String × SourceResult)

/-- Python dict lookup on the insertion-ordered association list. -/
def lookupA : AggData → String → Option SourceResult
  | [], _ => none
  | p :: rest, k => if p.1 = k then some p.2 else lookupA rest k

structure Briefing where
  briefing : String
  generated_at : String
  ai_powered : Bool
  demo_mode : Bool
deriving DecidableEq

/-!
The synthesizer reads the dynamic dicts by key; an entry whose payload does
not have the shape its key promises makes the Python code raise
(`KeyError`/`TypeError`), modelled as `Except.error`.  Payloads that Python
would skip because of the `isinstance(..., list)` guard are skipped here too.
(Python's duck typing lets a few degenerate mismatches through, e.g. an empty
list of the wrong element type; the spec's typed `AggregateResult` excludes
those inputs, and all properties below quantify over well-shaped maps.)
-/

def weatherPart : Option SourceResult → Except String (Option String)
  | none => .ok none
  | some r =>
      match r.data with
      | none => .ok none
      | some (.weather w) =>
          .ok (some ("Weather in " ++ w.city ++ ": " ++ toString w.temp ++ "°F, " ++ w.condition))
      | some _ => .error "TypeError"

def newsPart : Option SourceResult → Except String (Option String)
  | none => .ok none
  | some r =>
      match r.data with
      | none => .ok none
      | some (.news items) =>
          .ok (some ("Top headlines: " ++
            String.intercalate "; " ((items.take 3).map (fun n => n.title))))
      | some _ => .error "TypeError"

def stockCtxLine (s : StockItem) : String :=
  s.symbol ++ ": $" ++ formatF2 s.price ++ " (" ++ formatSigned1 s.change_pct ++ "%)"

def stocksPart : Option SourceResult → Except String (Option String)
  | none => .ok none
  | some r =>
      match r.data with
      | none => .ok none
      | some (.stocks l) =>
          .ok (some ("Markets: " ++ String.intercalate ", " (l.map stockCtxLine)))
      | some (.news _) => .error "KeyError"
      | some (.github _) => .error "KeyError"
      | some _ => .ok none

def quotePart : Option SourceResult → Except String (Option String)
  | none => .ok none
  | some r =>
      match r.data with
      | none => .ok none
      | some (.quote q) =>
          .ok (some ("Quote of the day: \"" ++ q.text ++ "\" - " ++ q.author))
      | some _ => .error "TypeError"

/-- `AIBriefingGenerator._build_context`. -/
def build_context (d : AggData) : Except String String :=
  match weatherPart (lookupA d "weather") with
  | .error e => .error e
  | .ok p1 =>
      match newsPart (lookupA d "news") with
      | .error e => .error e
      | .ok p2 =>
          match stocksPart (lookupA d "stocks") with
          | .error e => .error e
          | .ok p3 =>
              match quotePart (lookupA d "quote") with
              | .error e => .error e
              | .ok p4 =>
                  .ok (String.intercalate "\n" ([p1, p2, p3, p4].filterMap id))

def weatherSentence : Option SourceResult → Except String String
  | none => .ok ""
  | some r =>
      match r.data with
      | none => .ok ""
      | some (.weather w) =>
          .ok ("It's " ++ toString w.temp ++ "°F and " ++ pythonLower w.condition ++
            " in " ++ w.city ++ ". ")
      | some _ => .error "TypeError"

def stockBullet (s : StockItem) : String :=
  "• " ++ s.symbol ++ " is " ++ (if 0 < s.change_pct then "up" else "down") ++ " " ++
    formatAbs1 s.change_pct ++ "% at $" ++ formatF2 s.price ++ "\n"

def stocksBullets : Option SourceResult → Except String String
  | none => .ok ""
  | some r =>
      match r.data with
      | none => .ok ""
      | some (.stocks l) => .ok (String.join (l.map stockBullet))
      | some (.news _) => .error "KeyError"
      | some (.github _) => .error "KeyError"
      | some _ => .ok ""

def newsBullets : Option SourceResult → Except String String
  | none => .ok ""
  | some r =>
      match r.data with
      | none => .ok ""
      | some (.news items) =>
          .ok (String.join ((items.take 3).map (fun n => "• " ++ n.title ++ "\n")))
      | some _ => .error "TypeError"

def quoteSection : Option SourceResult → Except String String
  | none => .ok ""
  | some r =>
      match r.data with
      | none => .ok ""
      | some (.quote q) =>
          .ok ("\n**Thought for Today**\n\"" ++ q.text ++ "\" — " ++ q.author)
      | some _ => .error "TypeError"

/-- `AIBriefingGenerator._generate_mock_briefing`.  The code first computes the
context (and discards it) — so a context failure propagates from here too —
then renders the template.  The Weather/Moving/Headlines section headings are
appended unconditionally; only the quote heading is conditional.
`dateStr` models `datetime.now().strftime(...)`, `nowIso` models
`datetime.now().isoformat()`. -/
def mockBriefing (d : AggData) (dateStr nowIso : String) : Except String Briefing :=
  match build_context d with
  | .error e => .error e
  | .ok _ =>
      match weatherSentence (lookupA d "weather") with
      | .error e => .error e
      | .ok wSec =>
          match stocksBullets (lookupA d "stocks") with
          | .error e => .error e
          | .ok sSec =>
              match newsBullets (lookupA d "news") with
              | .error e => .error e
              | .ok nSec =>
                  match quoteSection (lookupA d "quote") with
                  | .error e => .error e
                  | .ok qSec =>
                      .ok { briefing := "Good morning! Here's your intelligence briefing for " ++
                              dateStr ++ ":\n\n**Weather & Environment**\n" ++ wSec ++
                              "\n\n**What's Moving**\n" ++ sSec ++
                              "\n**Headlines to Watch**\n" ++ nSec ++ qSec
                            generated_at := nowIso
                            ai_powered := false
                            demo_mode := true }

/-- `AIBriefingGenerator.generate_briefing`.  `hasKey` is the truthiness of
`OPENAI_API_KEY`; `llm` is the chat-completion call (context in, briefing text
out).  The context is built outside the `try`; only the service call's failure
is caught and recovered by the template path. -/
def generate_briefing (hasKey : Bool) (llm : String → Except String String) (d : AggData)
    (dateStr nowIso : String) : Except String Briefing :=
  match hasKey with
  | false => mockBriefing d dateStr nowIso
  | true =>
    match build_context d with
    | .error e => .error e
    | .ok ctx =>
        match llm ctx with
        | .ok text =>
            .ok { briefing := text, generated_at := nowIso, ai_powered := true, demo_mode := false }
        | .error _ => mockBriefing d dateStr nowIso

/-! ### Well-shaped aggregate maps -/

def isWeatherP : SourcePayload → Bool
  | .weather _ => true
  | _ => false

def isNewsP : SourcePayload → Bool
  | .news _ => true
  | _ => false

def isStocksP : SourcePayload → Bool
  | .stocks _ => true
  | _ => false

def isQuoteP : SourcePayload → Bool
  | .quote _ => true
  | _ => false

/-- An entry is well-shaped for its key when any payload it carries has the
shape the synthesizer expects under that key (§3's `SourcePayload` variants);
keys the synthesizer never reads are unconstrained. -/
def shapeOKat (k : String) (r : SourceResult) : Bool :=
  match r.data with
  | none => true
  | some p =>
      (k != "weather" || isWeatherP p) && (k != "news" || isNewsP p) &&
      (k != "stocks" || isStocksP p) && (k != "quote" || isQuoteP p)

/-- A well-shaped `AggregateResult` in the sense of §3 of the spec. -/
def WF (d : AggData) : Bool := d.all (fun p => shapeOKat p.1 p.2)

def hasData (d : AggData) (k : String) : Bool :=
  match lookupA d k with
  | some r => r.data.isSome
  | none => false

theorem lookupA_mem {d : AggData} {k : String} {r : SourceResult}
    (h : lookupA d k = some r) : (k, r) ∈ d := by
  induction d with
  | nil => simp [lookupA] at h
  | cons p rest ih =>
      obtain ⟨a, b⟩ := p
      simp only [lookupA] at h
      by_cases hk : a = k
      · rw [if_pos hk] at h
        injection h with h2
        subst hk
        subst h2
        exact List.mem_cons_self _ _
      · rw [if_neg hk] at h
        exact List.mem_cons_of_mem _ (ih h)

theorem WF_lookup {d : AggData} (h : WF d = true) {k : String} {r : SourceResult}
    (hr : lookupA d k = some r) : shapeOKat k r = true := by
  have hm := lookupA_mem hr
  exact List.all_eq_true.mp h _ hm

theorem weatherPart_ok {r : SourceResult} (h : shapeOKat "weather" r = true) :
    ∃ o, weatherPart (some r) = .ok o := by
  obtain ⟨s, d, e, dm, cr⟩ := r
  rcases d with _ | p
  · exact ⟨none, rfl⟩
  · rcases p with w | its | its | its | q
    · exact ⟨_, rfl⟩
    · exact Bool.noConfusion h
    · exact Bool.noConfusion h
    · exact Bool.noConfusion h
    · exact Bool.noConfusion h

theorem newsPart_ok {r : SourceResult} (h : shapeOKat "news" r = true) :
    ∃ o, newsPart (some r) = .ok o := by
  obtain ⟨s, d, e, dm, cr⟩ := r
  rcases d with _ | p
  · exact ⟨none, rfl⟩
  · rcases p with w | its | its | its | q
    · exact Bool.noConfusion h
    · exact ⟨_, rfl⟩
    · exact Bool.noConfusion h
    · exact Bool.noConfusion h
    · exact Bool.noConfusion h

theorem stocksPart_ok {r : SourceResult} (h : shapeOKat "stocks" r = true) :
    ∃ o, stocksPart (some r) = .ok o := by
  obtain ⟨s, d, e, dm, cr⟩ := r
  rcases d with _ | p
  · exact ⟨none, rfl⟩
  · rcases p with w | its | its | its | q
    · exact Bool.noConfusion h
    · exact Bool.noConfusion h
    · exact ⟨_, rfl⟩
    · exact Bool.noConfusion h
    · exact Bool.noConfusion h

theorem quotePart_ok {r : SourceResult} (h : shapeOKat "quote" r = true) :
    ∃ o, quotePart (some r) = .ok o := by
  obtain ⟨s, d, e, dm, cr⟩ := r
  rcases d with _ | p
  · exact ⟨none, rfl⟩
  · rcases p with w | its | its | its | q
    · exact Bool.noConfusion h
    · exact Bool.noConfusion h
    · exact Bool.noConfusion h
    · exact Bool.noConfusion h
    · exact ⟨_, rfl⟩

theorem build_context_WF {d : AggData} (h : WF d = true) :
    ∃ s, build_context d = .ok s := by
  have h1 : ∃ o, weatherPart (lookupA d "weather") = .ok o := by
    cases hw : lookupA d "weather" with
    | none => exact ⟨none, rfl⟩
    | some r => exact weatherPart_ok (WF_lookup h hw)
  have h2 : ∃ o, newsPart (lookupA d "news") = .ok o := by
    cases hw : lookupA d "news" with
    | none => exact ⟨none, rfl⟩
    | some r => exact newsPart_ok (WF_lookup h hw)
  have h3 : ∃ o, stocksPart (lookupA d "stocks") = .ok o := by
    cases hw : lookupA d "stocks" with
    | none => exact ⟨none, rfl⟩
    | some r => exact stocksPart_ok (WF_lookup h hw)
  have h4 : ∃ o, quotePart (lookupA d "quote") = .ok o := by
    cases hw : lookupA d "quote" with
    | none => exact ⟨none, rfl⟩
    | some r => exact quotePart_ok (WF_lookup h hw)
  obtain ⟨o1, e1⟩ := h1
  obtain ⟨o2, e2⟩ := h2
  obtain ⟨o3, e3⟩ := h3
  obtain ⟨o4, e4⟩ := h4
  refine ⟨String.intercalate "\n" ([o1, o2, o3, o4].filterMap id), ?_⟩
  simp only [build_context, e1, e2, e3, e4]

theorem weatherSentence_ok {r : SourceResult} (h : shapeOKat "weather" r = true) :
    ∃ o, weatherSentence (some r) = .ok o := by
  obtain ⟨s, d, e, dm, cr⟩ := r
  rcases d with _ | p
  · exact ⟨_, rfl⟩
  · rcases p with w | its | its | its | q
    · exact ⟨_, rfl⟩
    · exact Bool.noConfusion h
    · exact Bool.noConfusion h
    · exact Bool.noConfusion h
    · exact Bool.noConfusion h

theorem stocksBullets_ok {r : SourceResult} (h : shapeOKat "stocks" r = true) :
    ∃ o, stocksBullets (some r) = .ok o := by
  obtain ⟨s, d, e, dm, cr⟩ := r
  rcases d with _ | p
  · exact ⟨_, rfl⟩
  · rcases p with w | its | its | its | q
    · exact Bool.noConfusion h
    · exact Bool.noConfusion h
    · exact ⟨_, rfl⟩
    · exact Bool.noConfusion h
    · exact Bool.noConfusion h

theorem newsBullets_ok {r : SourceResult} (h : shapeOKat "news" r = true) :
    ∃ o, newsBullets (some r) = .ok o := by
  obtain ⟨s, d, e, dm, cr⟩ := r
  rcases d with _ | p
  · exact ⟨_, rfl⟩
  · rcases p with w | its | its | its | q
    · exact Bool.noConfusion h
    · exact ⟨_, rfl⟩
    · exact Bool.noConfusion h
    · exact Bool.noConfusion h
    · exact Bool.noConfusion h

theorem quoteSection_ok {r : SourceResult} (h : shapeOKat "quote" r = true) :
    ∃ o, quoteSection (some r) = .ok o := by
  obtain ⟨s, d, e, dm, cr⟩ := r
  rcases d with _ | p
  · exact ⟨_, rfl⟩
  · rcases p with w | its | its | its | q
    · exact Bool.noConfusion h
    · exact Bool.noConfusion h
    · exact Bool.noConfusion h
    · exact Bool.noConfusion h
    · exact ⟨_, rfl⟩

/-- On a well-shaped aggregate the template renders, and the briefing text is the
greeting plus the three fixed headings with the four per-source pieces spliced in. -/
theorem mockBriefing_WF {d : AggData} (dateStr nowIso : String) (h : WF d = true) :
    ∃ wSec sSec nSec qSec,
      weatherSentence (lookupA d "weather") = .ok wSec ∧
      stocksBullets (lookupA d "stocks") = .ok sSec ∧
      newsBullets (lookupA d "news") = .ok nSec ∧
      quoteSection (lookupA d "quote") = .ok qSec ∧
      mockBriefing d dateStr nowIso = .ok
        { briefing := "Good morning! Here's your intelligence briefing for " ++ dateStr ++
            ":\n\n**Weather & Environment**\n" ++ wSec ++ "\n\n**What's Moving**\n" ++ sSec ++
            "\n**Headlines to Watch**\n" ++ nSec ++ qSec
          generated_at := nowIso
          ai_powered := false
          demo_mode := true } := by
  obtain ⟨ctx, ectx⟩ := build_context_WF h
  have h1 : ∃ o, weatherSentence (lookupA d "weather") = .ok o := by
    cases hw : lookupA d "weather" with
    | none => exact ⟨_, rfl⟩
    | some r => exact weatherSentence_ok (WF_lookup h hw)
  have h2 : ∃ o, stocksBullets (lookupA d "stocks") = .ok o := by
    cases hw : lookupA d "stocks" with
    | none => exact ⟨_, rfl⟩
    | some r => exact stocksBullets_ok (WF_lookup h hw)
  have h3 : ∃ o, newsBullets (lookupA d "news") = .ok o := by
    cases hw : lookupA d "news" with
    | none => exact ⟨_, rfl⟩
    | some r => exact newsBullets_ok (WF_lookup h hw)
  have h4 : ∃ o, quoteSection (lookupA d "quote") = .ok o := by
    cases hw : lookupA d "quote" with
    | none => exact ⟨_, rfl⟩
    | some r => exact quoteSection_ok (WF_lookup h hw)
  obtain ⟨o1, e1⟩ := h1
  obtain ⟨o2, e2⟩ := h2
  obtain ⟨o3, e3⟩ := h3
  obtain ⟨o4, e4⟩ := h4
  refine ⟨o1, o2, o3, o4, e1, e2, e3, e4, ?_⟩
  simp only [mockBriefing, ectx, e1, e2, e3, e4]

theorem weatherSentence_empty {d : AggData} (h : hasData d "weather" = false) :
    weatherSentence (lookupA d "weather") = .ok "" := by
  unfold hasData at h
  cases hw : lookupA d "weather" with
  | none => rfl
  | some r =>
      rw [hw] at h
      obtain ⟨s, dta, e, dm, cr⟩ := r
      cases dta with
      | none => rfl
      | some p => exact Bool.noConfusion h

theorem stocksBullets_empty {d : AggData} (h : hasData d "stocks" = false) :
    stocksBullets (lookupA d "stocks") = .ok "" := by
  unfold hasData at h
  cases hw : lookupA d "stocks" with
  | none => rfl
  | some r =>
      rw [hw] at h
      obtain ⟨s, dta, e, dm, cr⟩ := r
      cases dta with
      | none => rfl
      | some p => exact Bool.noConfusion h

theorem newsBullets_empty {d : AggData} (h : hasData d "news" = false) :
    newsBullets (lookupA d "news") = .ok "" := by
  unfold hasData at h
  cases hw : lookupA d "news" with
  | none => rfl
  | some r =>
      rw [hw] at h
      obtain ⟨s, dta, e, dm, cr⟩ := r
      cases dta with
      | none => rfl
      | some p => exact Bool.noConfusion h

theorem quoteSection_empty {d : AggData} (h : hasData d "quote" = false) :
    quoteSection (lookupA d "quote") = .ok "" := by
  unfold hasData at h
  cases hw : lookupA d "quote" with
  | none => rfl
  | some r =>
      rw [hw] at h
      obtain ⟨s, dta, e, dm, cr⟩ := r
      cases dta with
      | none => rfl
      | some p => exact Bool.noConfusion h

/-! ### Claim theorems -/

/-- C1: for every environment (any pattern of upstream success/failure) and any
city/category, `gather_all` returns a map whose keys are exactly the five known
sources of the enum, one entry each in fetcher order, and every entry's
`source` field equals its key (`Source.tag` gives the code string realizing
each enum member). -/
theorem C1_gather_all_keys (env : Env) (city category : String) :
    (gather_all env city category).map Prod.fst = Source.all.map Source.tag ∧
    ∀ p ∈ gather_all env city category, p.2.source = p.1 := by
  constructor
  · rw [gather_all_eq]
    rfl
  · intro p hp
    rw [gather_all_eq] at hp
    simp only [List.mem_cons, List.not_mem_nil, or_false] at hp
    rcases hp with rfl | rfl | rfl | rfl | rfl
    · exact fetch_weather_source env.weather city
    · exact fetch_news_source env.news category
    · exact fetch_stocks_source env.stocks ["AAPL", "GOOGL", "MSFT"]
    · exact fetch_github_source env.github
    · exact fetch_quote_source env.quote

def c1Env : Env :=
  { weather := { primary := .error "net down", hasKey := false, secondary := .error "net down" }
    news := { topstories := .error "net down", item := fun _ => .error "net down"
              hasKey := false, secondary := .error "net down" }
    stocks := { primary := .error "net down", hasKey := false
                avCall := fun _ => .error "net down" }
    github := .error "net down"
    quote := { call := .error "net down", pick := 0 } }

/-- Witness for C1 at a concrete all-failing environment. -/
theorem C1_witness :
    (gather_all c1Env "New York" "technology").map Prod.fst = Source.all.map Source.tag ∧
    ("quote", fetch_quote c1Env.quote).2.source = ("quote", fetch_quote c1Env.quote).1 := by
  refine ⟨(C1_gather_all_keys c1Env "New York" "technology").1, ?_⟩
  refine (C1_gather_all_keys c1Env "New York" "technology").2 _ ?_
  rw [gather_all_eq]
  simp

/-- C3: for every well-shaped `AggregateResult` (including an all-error one) and
any credential configuration, `generate_briefing` returns a well-formed
`Briefing` and never an error; if no credential is configured, or the
generative-service call fails, the result is exactly the deterministic
template path's result. -/
theorem C3_generate_briefing_total (hasKey : Bool) (llm : String → Except String String)
    (d : AggData) (dateStr nowIso : String) (h : WF d = true) :
    (∃ b, generate_briefing hasKey llm d dateStr nowIso = .ok b) ∧
    (∀ ctx e, build_context d = .ok ctx → llm ctx = .error e →
        generate_briefing hasKey llm d dateStr nowIso = mockBriefing d dateStr nowIso) ∧
    (hasKey = false → generate_briefing hasKey llm d dateStr nowIso = mockBriefing d dateStr nowIso) := by
  obtain ⟨ctx, ectx⟩ := build_context_WF h
  obtain ⟨w1, s1, n1, q1, _, _, _, _, emock⟩ := mockBriefing_WF dateStr nowIso h
  refine ⟨?_, ?_, ?_⟩
  · cases hasKey with
    | false => exact ⟨_, emock⟩
    | true =>
        cases hl : llm ctx with
        | ok t =>
            exact ⟨{ briefing := t, generated_at := nowIso, ai_powered := true, demo_mode := false },
              by simp only [generate_briefing, ectx, hl]⟩
        | error e =>
            have hg : generate_briefing true llm d dateStr nowIso = mockBriefing d dateStr nowIso := by
              simp only [generate_briefing, ectx, hl]
            rw [hg]
            exact ⟨_, emock⟩
  · intro ctx2 e hctx2 hl
    rw [ectx] at hctx2
    injection hctx2 with hh
    subst hh
    cases hasKey with
    | false => rfl
    | true => simp only [generate_briefing, ectx, hl]
  · intro hk
    subst hk
    rfl

def c3Agg : AggData :=
  [("weather", { source := "weather", error := some "down" }),
   ("news", { source := "news", error := some "down" }),
   ("stocks", { source := "stocks", error := some "down" }),
   ("github", { source := "github", error := some "down" }),
   ("quote", { source := "quote", error := some "down" })]

/-- Witness for C3: an aggregate where every source has only an `error` field,
with a credential configured and a failing generative service. -/
theorem C3_witness :
    WF c3Agg = true ∧
    ∃ b, generate_briefing true (fun _ => .error "service down") c3Agg
        "Monday, June 01" "2026-06-01T08:00:00" = .ok b :=
  ⟨by decide,
   (C3_generate_briefing_total true (fun _ => .error "service down") c3Agg
      "Monday, June 01" "2026-06-01T08:00:00" (by decide)).1⟩

def c5Agg : AggData :=
  [("weather", { source := "weather", error := some "unreachable" }),
   ("news", { source := "news", error := some "unreachable" }),
   ("stocks", { source := "stocks", error := some "unreachable" }),
   ("github", { source := "github", error := some "unreachable" }),
   ("quote", { source := "quote", error := some "unreachable" })]

/-- C5 counterexample: on an aggregate where every source carries only an
`error`, the template still renders the fixed section headings (here
`**What's Moving**` although the market source has no data), so absent
sources are not "omitted entirely from the rendered text". -/
theorem C5_counterexample :
    (mockBriefing c5Agg "Friday, January 03" "2026-01-03T08:00:00").toOption =
      some { briefing := "Good morning! Here's your intelligence briefing for Friday, January 03:\n\n**Weather & Environment**\n\n\n**What's Moving**\n\n**Headlines to Watch**\n"
             generated_at := "2026-01-03T08:00:00", ai_powered := false, demo_mode := true } ∧
    strContains "Good morning! Here's your intelligence briefing for Friday, January 03:\n\n**Weather & Environment**\n\n\n**What's Moving**\n\n**Headlines to Watch**\n"
      "**What's Moving**" = true ∧
    hasData c5Agg "stocks" = false :=
  ⟨by decide, by decide, by decide⟩

/-- C5 amended: on every well-shaped aggregate the template renders without
error; the briefing text is the greeting followed by the three fixed section
headings (rendered unconditionally, so an absent source leaves an empty
section rather than omitting its heading) with per-source body text spliced
in, where a source that is missing or carries only an `error` contributes an
empty body, and the quote section (heading included) is entirely absent
without quote data. -/
theorem C5_template_sections (d : AggData) (dateStr nowIso : String) (h : WF d = true) :
    ∃ wSec sSec nSec qSec,
      mockBriefing d dateStr nowIso = .ok
        { briefing := "Good morning! Here's your intelligence briefing for " ++ dateStr ++
            ":\n\n**Weather & Environment**\n" ++ wSec ++ "\n\n**What's Moving**\n" ++ sSec ++
            "\n**Headlines to Watch**\n" ++ nSec ++ qSec
          generated_at := nowIso, ai_powered := false, demo_mode := true } ∧
      (hasData d "weather" = false → wSec = "") ∧
      (hasData d "stocks" = false → sSec = "") ∧
      (hasData d "news" = false → nSec = "") ∧
      (hasData d "quote" = false → qSec = "") := by
  obtain ⟨w, s, n, q, e1, e2, e3, e4, emock⟩ := mockBriefing_WF dateStr nowIso h
  refine ⟨w, s, n, q, emock, ?_, ?_, ?_, ?_⟩
  · intro hw
    have h0 := weatherSentence_empty hw
    rw [e1] at h0
    injection h0
  · intro hw
    have h0 := stocksBullets_empty hw
    rw [e2] at h0
    injection h0
  · intro hw
    have h0 := newsBullets_empty hw
    rw [e3] at h0
    injection h0
  · intro hw
    have h0 := quoteSection_empty hw
    rw [e4] at h0
    injection h0

/-- Witness for the amended C5 at the all-error aggregate. -/
theorem C5_witness :
    WF c5Agg = true ∧
    ∃ wSec sSec nSec qSec,
      mockBriefing c5Agg "Friday, January 03" "2026-01-03T08:00:00" = .ok
        { briefing := "Good morning! Here's your intelligence briefing for Friday, January 03" ++
            ":\n\n**Weather & Environment**\n" ++ wSec ++ "\n\n**What's Moving**\n" ++ sSec ++
            "\n**Headlines to Watch**\n" ++ nSec ++ qSec
          generated_at := "2026-01-03T08:00:00", ai_powered := false, demo_mode := true } ∧
      (hasData c5Agg "weather" = false → wSec = "") ∧
      (hasData c5Agg "stocks" = false → sSec = "") ∧
      (hasData c5Agg "news" = false → nSec = "") ∧
      (hasData c5Agg "quote" = false → qSec = "") := by
  constructor
  · decide
  · have h0 := C5_template_sections c5Agg "Friday, January 03" "2026-01-03T08:00:00" (by decide)
    obtain ⟨w, s, n, q, hm, h1, h2, h3, h4⟩ := h0
    exact ⟨w, s, n, q, hm, h1, h2, h3, h4⟩

/-- C10: the briefing is independent of the trending/github entry.  For any two
aggregates that agree on every key except `"github"`, the generative-service
context, the deterministic template briefing, and `generate_briefing` itself
(for any credential state and any service behaviour) coincide — trending data
never reaches any briefing. -/
theorem C10_trending_independence (d1 d2 : AggData) (dateStr nowIso : String) (hasKey : Bool)
    (llm : String → Except String String)
    (h : ∀ k, k ≠ "github" → lookupA d1 k = lookupA d2 k) :
    build_context d1 = build_context d2 ∧
    mockBriefing d1 dateStr nowIso = mockBriefing d2 dateStr nowIso ∧
    generate_briefing hasKey llm d1 dateStr nowIso =
      generate_briefing hasKey llm d2 dateStr nowIso := by
  have hw := h "weather" (by decide)
  have hn := h "news" (by decide)
  have hs := h "stocks" (by decide)
  have hq := h "quote" (by decide)
  have hbc : build_context d1 = build_context d2 := by
    unfold build_context
    rw [hw, hn, hs, hq]
  have hmb : mockBriefing d1 dateStr nowIso = mockBriefing d2 dateStr nowIso := by
    unfold mockBriefing
    rw [hbc, hw, hn, hs, hq]
  refine ⟨hbc, hmb, ?_⟩
  unfold generate_briefing
  rw [hbc, hmb]

def c10Agg1 : AggData :=
  [("quote", { source := "quote", data := some (.quote { text := "T", author := "A" }) }),
   ("github", { source := "github"
                data := some (.github [{ name := "a/b", stars := 10, description := "x" }]) })]

def c10Agg2 : AggData :=
  [("quote", { source := "quote", data := some (.quote { text := "T", author := "A" }) }),
   ("github", { source := "github", error := some "down", demo := true })]

/-- Witness for C10: two concrete aggregates differing only in the github
entry (live data vs. errored demo) produce identical context and briefing. -/
theorem C10_witness :
    (∀ k, k ≠ "github" → lookupA c10Agg1 k = lookupA c10Agg2 k) ∧
    build_context c10Agg1 = build_context c10Agg2 ∧
    mockBriefing c10Agg1 "D" "T" = mockBriefing c10Agg2 "D" "T" := by
  have h : ∀ k, k ≠ "github" → lookupA c10Agg1 k = lookupA c10Agg2 k := by
    intro k hk
    simp only [c10Agg1, c10Agg2, lookupA]
    by_cases hq : "quote" = k
    · rw [if_pos hq, if_pos hq]
    · rw [if_neg hq, if_neg hq, if_neg (fun hh => hk hh.symm), if_neg (fun hh => hk hh.symm)]
  obtain ⟨h1, h2, _⟩ := C10_trending_independence c10Agg1 c10Agg2 "D" "T" false
    (fun _ => .error "x") h
  exact ⟨h, h1, h2⟩

/-- C2 counterexample: with the primary unreachable and no secondary key
configured, the weather fetcher returns an error-only result — `demo` is
`false` and there is no payload at all, contradicting "demo=true and a
non-empty, well-formed data payload". -/
theorem C2_counterexample :
    (fetch_weather { primary := .error "connection refused", hasKey := false
                     secondary := .error "unused" } "New York").demo = false ∧
    (fetch_weather { primary := .error "connection refused", hasKey := false
                     secondary := .error "unused" } "New York").data = none :=
  ⟨rfl, rfl⟩

/-- C2 amended: when primary and secondary both fail (or the secondary is
unconfigured), only the trending and quote fetchers return `demo=true` with a
non-empty built-in payload; the weather, news and market fetchers instead
return an error-only result (`demo=false`, no `data`) carrying the primary
failure's message. -/
theorem C2_fallback_behaviour :
    (∀ (sec : Except String OwmResponse) (city e : String),
        fetch_weather { primary := .error e, hasKey := false, secondary := sec } city =
          { source := "weather", error := some e }) ∧
    (∀ (city e e2 : String),
        fetch_weather { primary := .error e, hasKey := true, secondary := .error e2 } city =
          { source := "weather", error := some e }) ∧
    (∀ (it : Nat → Except String (Option HnStory)) (sec : Except String (List NewsApiArticle))
        (cat e : String),
        fetch_news { topstories := .error e, item := it, hasKey := false, secondary := sec } cat =
          { source := "news", error := some e }) ∧
    (∀ (it : Nat → Except String (Option HnStory)) (cat e e2 : String),
        fetch_news { topstories := .error e, item := it, hasKey := true
                     secondary := .error e2 } cat =
          { source := "news", error := some e }) ∧
    (∀ (av : String → Except String (Option AvQuote)) (syms : List String) (e : String),
        fetch_stocks { primary := .error e, hasKey := false, avCall := av } syms =
          { source := "stocks", error := some e }) ∧
    (∀ (syms : List String) (e e2 : String),
        fetch_stocks { primary := .error e, hasKey := true
                       avCall := fun _ => .error e2 } syms =
          { source := "stocks", error := some e }) ∧
    (∀ (e : String),
        (fetch_github_trending (.error e)).demo = true ∧
        (fetch_github_trending (.error e)).data =
          some (.github [{ name := "cool/project", stars := 1234
                           description := "Something interesting" }])) ∧
    (∀ (e : String) (pick : Fin 3),
        (fetch_quote { call := .error e, pick := pick }).demo = true ∧
        ∃ q ∈ builtinQuotes,
          (fetch_quote { call := .error e, pick := pick }).data = some (.quote q)) := by
  refine ⟨fun sec city e => rfl, fun city e e2 => rfl, fun it sec cat e => rfl,
    fun it cat e e2 => rfl, fun av syms e => rfl, ?_, fun e => ⟨rfl, rfl⟩, ?_⟩
  · intro syms e e2
    show stocksFallback { primary := .error e, hasKey := true
                          avCall := fun _ => .error e2 } syms e = _
    unfold stocksFallback
    dsimp only
    have hnil : (syms.take 3).filterMap
        (avSym { primary := .error e, hasKey := true, avCall := fun _ => .error e2 }) = [] :=
      List.filterMap_eq_nil_iff.mpr (fun a _ => rfl)
    rw [hnil]
    rfl
  · intro e pick
    exact ⟨rfl, ⟨pickQuote pick, pickQuote_mem pick, rfl⟩⟩

/-- C4 counterexample: the trending fetcher's failure path populates both
`data` (the demo payload) and `error` at once, so "exactly one of data/error
is populated on every exit path" fails. -/
theorem C4_counterexample :
    (fetch_github_trending (.error "rate limited")).data.isSome = true ∧
    (fetch_github_trending (.error "rate limited")).error.isSome = true :=
  ⟨rfl, rfl⟩

/-- Exactly one of `data`/`error` is populated. -/
def exclusiveRes (r : SourceResult) : Bool :=
  (r.data.isSome && r.error.isNone) || (r.data.isNone && r.error.isSome)

/-- C4 amended: on every exit path the weather, news, market and quote
fetchers populate exactly one of `data`/`error` (data without error on
success, error without data on failure), and so does the trending fetcher on
success; the trending fetcher's failure path however populates both, pairing
the demo payload with the error message. -/
theorem C4_data_error_exclusive :
    (∀ (we : WeatherEnv) (city : String), exclusiveRes (fetch_weather we city) = true) ∧
    (∀ (ne : NewsEnv) (cat : String), exclusiveRes (fetch_news ne cat) = true) ∧
    (∀ (se : StocksEnv) (syms : List String), exclusiveRes (fetch_stocks se syms) = true) ∧
    (∀ (qe : QuoteEnv), exclusiveRes (fetch_quote qe) = true) ∧
    (∀ (repos : List GhRepo), exclusiveRes (fetch_github_trending (.ok repos)) = true) ∧
    (∀ (e : String), (fetch_github_trending (.error e)).data.isSome = true ∧
        (fetch_github_trending (.error e)).error.isSome = true) := by
  refine ⟨?_, ?_, ?_, ?_, fun repos => rfl, fun e => ⟨rfl, rfl⟩⟩
  · intro we city
    unfold fetch_weather weatherFallback
    (repeat' split) <;> rfl
  · intro ne cat
    unfold fetch_news newsFallback
    (repeat' split) <;> rfl
  · intro se syms
    unfold fetch_stocks stocksFallback
    dsimp only
    (repeat' split) <;> rfl
  · intro qe
    unfold fetch_quote
    split <;> rfl

theorem hnCollect_length (env : NewsEnv) (ids : List Nat) (l : List NewsItem)
    (h : hnCollect env ids = .ok l) : l.length ≤ ids.length := by
  induction ids generalizing l with
  | nil =>
      rw [hnCollect] at h
      injection h with h1
      subst h1
      exact Nat.le_refl 0
  | cons sid rest ih =>
      rw [hnCollect] at h
      cases hi : env.item sid with
      | error e2 =>
          rw [hi] at h
          exact Except.noConfusion h
      | ok st? =>
          rw [hi] at h
          cases st? with
          | none => exact Nat.le_succ_of_le (ih l h)
          | some st =>
              dsimp only at h
              cases ht : st.title with
              | none =>
                  rw [ht] at h
                  exact Nat.le_succ_of_le (ih l h)
              | some t =>
                  rw [ht] at h
                  dsimp only at h
                  by_cases he : t = ""
                  · rw [if_pos he] at h
                    exact Nat.le_succ_of_le (ih l h)
                  · rw [if_neg he] at h
                    cases hr : hnCollect env rest with
                    | error e2 =>
                        rw [hr] at h
                        exact Except.noConfusion h
                    | ok l2 =>
                        rw [hr] at h
                        injection h with h1
                        subst h1
                        exact Nat.succ_le_succ (ih l2 hr)

theorem parseArticles_length (as : List NewsApiArticle) (l : List NewsItem)
    (h : parseArticles as = some l) : l.length = as.length := by
  induction as generalizing l with
  | nil =>
      rw [parseArticles] at h
      injection h with h1
      subst h1
      rfl
  | cons a rest ih =>
      rw [parseArticles] at h
      cases hp : parseArticle a with
      | none =>
          rw [hp] at h
          exact Option.noConfusion h
      | some i =>
          rw [hp] at h
          cases hr : parseArticles rest with
          | none =>
              rw [hr] at h
              exact Option.noConfusion h
          | some l2 =>
              rw [hr] at h
              injection h with h1
              subst h1
              rw [List.length_cons, List.length_cons, ih l2 hr]

theorem cgBuild_length (resp : CgResponse) (l : List StockItem)
    (h : cgBuild resp = .ok l) : l.length ≤ 3 := by
  unfold cgBuild at h
  cases h1 : coinItem resp.bitcoin "BTC" with
  | error e =>
      rw [h1] at h
      exact Except.noConfusion h
  | ok b =>
      rw [h1] at h
      cases h2 : coinItem resp.ethereum "ETH" with
      | error e =>
          rw [h2] at h
          exact Except.noConfusion h
      | ok et =>
          rw [h2] at h
          cases h3 : coinItem resp.solana "SOL" with
          | error e =>
              rw [h3] at h
              exact Except.noConfusion h
          | ok s =>
              rw [h3] at h
              injection h with h4
              subst h4
              exact List.length_filterMap_le _ _

theorem newsFallback_bound (env : NewsEnv) (e : String) (l : List NewsItem)
    (h : (newsFallback env e).data = some (.news l)) : l.length ≤ 5 := by
  unfold newsFallback at h
  split at h
  · split at h
    · rename_i arts _
      split at h
      · rename_i items hitems
        injection h with h1
        injection h1 with h2
        subst h2
        calc items.length = (arts.take 5).length := parseArticles_length _ _ hitems
          _ ≤ 5 := List.length_take_le ..
      · exact Option.noConfusion h
    · exact Option.noConfusion h
  · exact Option.noConfusion h

theorem stocksFallback_bound (env : StocksEnv) (syms : List String) (e : String)
    (l : List StockItem) (h : (stocksFallback env syms e).data = some (.stocks l)) :
    l.length ≤ 3 := by
  unfold stocksFallback at h
  dsimp only at h
  split at h
  · split at h
    · exact Option.noConfusion h
    · injection h with h1
      injection h1 with h2
      subst h2
      calc ((syms.take 3).filterMap (avSym env)).length
          ≤ (syms.take 3).length := List.length_filterMap_le _ _
        _ ≤ 3 := List.length_take_le ..
  · exact Option.noConfusion h

/-- C6: for every environment, a news payload has at most 5 items (primary and
secondary paths), a market payload at most 3, a trending payload at most 5,
and the quote fetcher always carries exactly one quote object. -/
theorem C6_payload_bounds :
    (∀ (ne : NewsEnv) (cat : String) (l : List NewsItem),
        (fetch_news ne cat).data = some (.news l) → l.length ≤ 5) ∧
    (∀ (se : StocksEnv) (syms : List String) (l : List StockItem),
        (fetch_stocks se syms).data = some (.stocks l) → l.length ≤ 3) ∧
    (∀ (ge : Except String (List GhRepo)) (l : List RepoItem),
        (fetch_github_trending ge).data = some (.github l) → l.length ≤ 5) ∧
    (∀ (qe : QuoteEnv), ∃ q, (fetch_quote qe).data = some (.quote q)) := by
  refine ⟨?_, ?_, ?_, ?_⟩
  · intro ne cat l h
    unfold fetch_news at h
    split at h
    · rename_i ids _
      split at h
      · rename_i arts harts
        injection h with h1
        injection h1 with h2
        subst h2
        calc arts.length ≤ (ids.take 5).length := hnCollect_length _ _ _ harts
          _ ≤ 5 := List.length_take_le ..
      · exact newsFallback_bound _ _ _ h
    · exact newsFallback_bound _ _ _ h
  · intro se syms l h
    unfold fetch_stocks at h
    split at h
    · rename_i resp _
      split at h
      · rename_i l2 hl2
        injection h with h1
        injection h1 with h2
        subst h2
        exact cgBuild_length _ _ hl2
      · exact stocksFallback_bound _ _ _ _ h
    · exact stocksFallback_bound _ _ _ _ h
  · intro ge l h
    cases ge with
    | ok repos =>
        injection h with h1
        injection h1 with h2
        subst h2
        calc ((repos.take 5).map _).length = (repos.take 5).length := List.length_map ..
          _ ≤ 5 := List.length_take_le ..
    | error e =>
        injection h with h1
        injection h1 with h2
        subst h2
        exact Nat.le_of_lt (by decide)
  · intro qe
    unfold fetch_quote
    split
    · exact ⟨_, rfl⟩
    · exact ⟨_, rfl⟩

def c6News : NewsEnv :=
  { topstories := .ok [7]
    item := fun _ => .ok (some { title := some "A", url := none })
    hasKey := false
    secondary := .error "x" }

def c6NewsItems : List NewsItem :=
  [{ title := "A", source := "Hacker News", url := some "https://news.ycombinator.com/item?id=7" }]

def c6Stocks : StocksEnv :=
  { primary := .ok { bitcoin := none, ethereum := none, solana := none }
    hasKey := false
    avCall := fun _ => .error "x" }

def c6StockItems : List StockItem := []

/-- Witness for C6 at concrete environments. -/
theorem C6_witness :
    (fetch_news c6News "technology").data = some (.news c6NewsItems) ∧
    c6NewsItems.length ≤ 5 ∧
    (fetch_stocks c6Stocks ["AAPL"]).data = some (.stocks c6StockItems) ∧
    c6StockItems.length ≤ 3 ∧
    ∃ q, (fetch_quote { call := .error "down", pick := 0 }).data = some (.quote q) := by
  refine ⟨by decide, ?_, by decide, ?_, ?_⟩
  · exact C6_payload_bounds.1 c6News "technology" c6NewsItems (by decide)
  · exact C6_payload_bounds.2.1 c6Stocks ["AAPL"] c6StockItems (by decide)
  · exact C6_payload_bounds.2.2.2 { call := .error "down", pick := 0 }

/-- C7: with the primary market source down, a configured key, and three
symbols whose per-symbol outcomes are given (at least one succeeding), the
fetch succeeds with exactly the successful symbols' entries in order — a
failing symbol is omitted and the fetch is not marked errored. -/
theorem C7_market_partial (se : StocksEnv) (a b c e : String) (oa ob oc : Option StockItem)
    (hp : se.primary = .error e) (hk : se.hasKey = true)
    (ha : avSym se a = oa) (hb : avSym se b = ob) (hc : avSym se c = oc)
    (hne : (oa.isSome || ob.isSome || oc.isSome) = true) :
    fetch_stocks se [a, b, c] =
      { source := "stocks", data := some (.stocks ([oa, ob, oc].filterMap id))
        error := none } := by
  have h0 : fetch_stocks se [a, b, c] = stocksFallback se [a, b, c] e := by
    unfold fetch_stocks
    rw [hp]
  have hfm : (([a, b, c] : List String).take 3).filterMap (avSym se) =
      [oa, ob, oc].filterMap id := by
    show ([a, b, c] : List String).filterMap (avSym se) = _
    simp only [List.filterMap_cons, List.filterMap_nil, ha, hb, hc, id_eq]
  rw [h0]
  unfold stocksFallback
  dsimp only
  rw [hk, hfm]
  rcases oa with _ | xa <;> rcases ob with _ | xb <;> rcases oc with _ | xc <;>
    first
      | exact Bool.noConfusion hne
      | rfl

def c7Env : StocksEnv :=
  { primary := .error "rate limited"
    hasKey := true
    avCall := fun s =>
      if s = "AAPL" then
        .ok (some { price := some "190.5", change := some "1.5", change_percent := some "0.8%" })
      else if s = "MSFT" then
        .ok (some { price := some "410.25", change := some "-2.5"
                    change_percent := some "-0.6%" })
      else .error "timeout" }

/-- Witness for C7: three symbols of which the middle one's upstream call
fails; the other two are returned and the fetch is not errored. -/
theorem C7_witness :
    (avSym c7Env "AAPL").isSome = true ∧
    avSym c7Env "GOOGL" = none ∧
    (avSym c7Env "MSFT").isSome = true ∧
    fetch_stocks c7Env ["AAPL", "GOOGL", "MSFT"] =
      { source := "stocks"
        data := some (.stocks
          ([avSym c7Env "AAPL", avSym c7Env "GOOGL", avSym c7Env "MSFT"].filterMap id))
        error := none } := by
  refine ⟨by decide, by decide, by decide, ?_⟩
  exact C7_market_partial c7Env "AAPL" "GOOGL" "MSFT" "rate limited" _ _ _
    rfl rfl rfl rfl rfl (by decide)

/-- C8: on any failure of the quotation upstream (network error, timeout, or a
payload whose fields are missing — all of which raise inside the same `try`),
the result has `demo=true`, no `error`, and its data is exactly one of the 3
built-in quote literals; two failing calls agree on everything except possibly
which of the 3 quotes the pseudo-random draw picked. -/
theorem C8_quote_fallback :
    ∀ (e1 e2 : String) (p1 p2 : Fin 3),
      (fetch_quote { call := .error e1, pick := p1 }).demo = true ∧
      (fetch_quote { call := .error e1, pick := p1 }).error = none ∧
      (∃ q ∈ builtinQuotes,
        (fetch_quote { call := .error e1, pick := p1 }).data = some (.quote q)) ∧
      (fetch_quote { call := .error e1, pick := p1 }).source =
        (fetch_quote { call := .error e2, pick := p2 }).source ∧
      (fetch_quote { call := .error e1, pick := p1 }).demo =
        (fetch_quote { call := .error e2, pick := p2 }).demo ∧
      (fetch_quote { call := .error e1, pick := p1 }).error =
        (fetch_quote { call := .error e2, pick := p2 }).error := by
  intro e1 e2 p1 p2
  exact ⟨rfl, rfl, ⟨pickQuote p1, pickQuote_mem p1, rfl⟩, rfl, rfl, rfl⟩

/-- C9 counterexample: on the primary path the condition text is passed
through verbatim, not title-cased — a primary response with condition
`"partly cloudy"` yields condition `"partly cloudy"`, whereas title-casing
would give `"Partly Cloudy"`. -/
theorem C9_counterexample :
    (fetch_weather { primary := .ok { areaName := "London", temp_F := "64"
                                      weatherDesc := "partly cloudy", humidity := "77"
                                      feelsLikeF := "63" }
                     hasKey := false, secondary := .error "unused" } "London").data =
      some (.weather { city := "London", temp := 64, condition := "partly cloudy"
                       humidity := 77, feels_like := 63 }) ∧
    pythonTitle "partly cloudy" = "Partly Cloudy" ∧
    "partly cloudy" ≠ "Partly Cloudy" :=
  ⟨by decide, by decide, by decide⟩

/-- C9 amended: temperatures are converted/rounded to integers on both
resolution paths; the condition text is title-cased only on the secondary
path and is passed through verbatim on the primary path; in particular a
primary response with `temp_F = "72"` parses to the integer 72. -/
theorem C9_weather_normalization :
    (∀ (k : Bool) (sec : Except String OwmResponse) (city : String) (w : WttrResponse)
        (t h fl : Int),
        pythonInt w.temp_F = some t → pythonInt w.humidity = some h →
        pythonInt w.feelsLikeF = some fl →
        fetch_weather { primary := .ok w, hasKey := k, secondary := sec } city =
          { source := "weather"
            data := some (.weather { city := w.areaName, temp := t, condition := w.weatherDesc
                                     humidity := h, feels_like := fl }) }) ∧
    (∀ (city e : String) (o : OwmResponse),
        fetch_weather { primary := .error e, hasKey := true, secondary := .ok o } city =
          { source := "weather"
            data := some (.weather { city := o.name.getD city, temp := pythonRound o.temp
                                     condition := pythonTitle o.description
                                     humidity := o.humidity
                                     feels_like := pythonRound o.feels_like }) }) ∧
    pythonInt "72" = some 72 := by
  refine ⟨?_, fun city e o => rfl, by decide⟩
  intro k sec city w t h fl ht hh hf
  unfold fetch_weather
  dsimp only
  rw [ht, hh, hf]

/-- Witness for C9: the spec's scenario — primary returns `temp_F = "72"`,
condition `"Clear"`; the normalized result has integer `temp = 72` and
condition `"Clear"`. -/
theorem C9_witness :
    fetch_weather { primary := .ok { areaName := "New York", temp_F := "72"
                                     weatherDesc := "Clear", humidity := "65"
                                     feelsLikeF := "70" }
                    hasKey := false, secondary := .error "unused" } "New York" =
      { source := "weather"
        data := some (.weather { city := "New York", temp := 72, condition := "Clear"
                                 humidity := 65, feels_like := 70 }) } := by
  exact C9_weather_normalization.1 false (.error "unused") "New York"
    { areaName := "New York", temp_F := "72", weatherDesc := "Clear", humidity := "65"
      feelsLikeF := "70" } 72 65 70 (by decide) (by decide) (by decide)
